import Mathlib

/-!
Formal model of the AirportApp schema-evolution and backfill engine
(`src/database/db.py`), as a shallow embedding in Lean.

SQLite values are modelled by `Value` (NULL, integer, real, text); a row is
an association list from column names to values, and a table records its
stored creation text (`sqlite_master.sql`), its column list, the per-column
defaults from its DDL, its declared foreign keys (referenced table names,
as reported by `PRAGMA foreign_key_list`), and its rows.  Python truthiness
(`x or d`, `if x:`) is modelled by `truthy`/`pyOr`; Python numeric
coercions `int(...)`/`float(...)` by `pyInt`/`pyRat` (rationals stand in
for IEEE floats: every quantity produced here is a single product or copy,
so no rounding behaviour is observable at this level).
-/

set_option maxHeartbeats 1000000

set_option maxRecDepth 100000

/-- A dynamically-typed SQLite/Python value. -/
inductive Value where
  | null : Value
  | int : Int → Value
  | real : ℚ → Value
  | text : String → Value
deriving DecidableEq, Repr

/-- Python truthiness of a value: `None`, `0`, `0.0` and `""` are falsy. -/
def truthy : Value → Bool
  | Value.null => false
  | Value.int n => n != 0
  | Value.real q => q != 0
  | Value.text s => s != ""

/-- Python `v or d`: the left operand when truthy, otherwise the default. -/
def pyOr (v d : Value) : Value :=
  if truthy v then v else d

/-- Numeric reading of a value, as used by Python arithmetic on row fields
(`float(x)`, `x * y`).  Text is mapped to 0: the columns fed to arithmetic
in the source are numeric-affinity columns. -/
def pyRat : Value → ℚ
  | Value.int n => (n : ℚ)
  | Value.real q => q
  | _ => 0

/-- Python `int(x)` on a numeric value (truncation toward zero). -/
def pyInt : Value → Int
  | Value.int n => n
  | Value.real q => q.num / (q.den : Int)
  | _ => 0

/-- Text reading of a value, for fields stored as TEXT. -/
def vStr : Value → String
  | Value.text s => s
  | _ => ""

/-- Python `str.lower()` restricted to ASCII, which is all the source ever
lowercases (SQL creation text and table names). -/
def pyLowerChar (c : Char) : Char :=
  if c.toNat ≥ 65 ∧ c.toNat ≤ 90 then Char.ofNat (c.toNat + 32) else c

/-- Lowercase an entire string (Python `s.lower()` on ASCII data). -/
def pyLower (s : String) : String :=
  String.mk (s.data.map pyLowerChar)

/-- Substring test on character lists: does `n` occur contiguously in `h`? -/
def listIsSub (n : List Char) : List Char → Bool
  | [] => n.isEmpty
  | c :: t => n.isPrefixOf (c :: t) || listIsSub n t

/-- Python `needle in hay` for strings (contiguous substring test). -/
def isSub (needle hay : String) : Bool :=
  listIsSub needle.data hay.data

/-- A database row: an association list from column names to values. -/
abbrev Row : Type := List (String × Value)

/-- Field access on a row, `r_dict.get(c)`: NULL when the key is absent. -/
def rget (r : Row) (c : String) : Value :=
  (r.lookup c).getD Value.null

/-- Field update on a row (SQL `UPDATE ... SET c = v` for one row). -/
def rset (r : Row) (c : String) (v : Value) : Row :=
  r.map (fun p => if p.1 = c then (c, v) else p)

/-- Live metadata and contents of one table: the creation text stored in
`sqlite_master.sql`, the column list (`PRAGMA table_info`), the DDL
defaults (used for columns an INSERT does not mention; absent entry means
NULL), the referenced-table name of each declared foreign key
(`PRAGMA foreign_key_list`; `none` models a NULL entry), and the rows. -/
structure TableInfo where
  sql : String
  cols : List String
  defaults : List (String × Value)
  fks : List (Option String)
  rows : List Row
deriving DecidableEq

/-- DDL default of a column (NULL when the DDL gives none). -/
def dflt (t : TableInfo) (c : String) : Value :=
  (t.defaults.lookup c).getD Value.null

/-- Semantics of `INSERT INTO dst (names) SELECT names FROM src`: one new
row per source row, appended in order; each destination column named in
`names` receives the source row value of that column, every other
destination column receives its DDL default. -/
def insertFromSelect (dst : TableInfo) (names : List String) (srcRows : List Row) : TableInfo :=
  { dst with
      rows := dst.rows ++ srcRows.map (fun r =>
        dst.cols.map (fun c => (c, if c ∈ names then rget r c else dflt dst c))) }

/-- Embedding of `_copy_table_data` (src/database/db.py lines 52-61): copy
the sorted name-intersection of the two column sets from every row of
`src` into `dst`; no-op when the intersection is empty. -/
def copy_table_data (src dst : TableInfo) : TableInfo :=
  let common := List.insertionSort (fun a b => a ≤ b) (src.cols.inter dst.cols)
  if common.isEmpty then dst
  else insertFromSelect dst common src.rows

/-!
Model of the users-table constraint rebuild and the auth_logs foreign-key
repair (src/database/db.py lines 64-202).  The database state tracks the
three tables the rebuild touches, the PRAGMA foreign_keys flag, and — as
an engine parameter — whether `ALTER TABLE users RENAME TO users_old`
silently repoints dependent foreign keys at the shadow name (modern SQLite
does; the code defends against both behaviours, so the model quantifies
over both).
-/

/-- State of the connection-visible database during the users rebuild. -/
structure DBState where
  users : Option TableInfo
  usersOld : Option TableInfo
  authLogs : Option TableInfo
  fkEnabled : Bool
  renameRepointsFks : Bool
  now : String
deriving DecidableEq

/-- Embedding of `_auth_logs_references_users_old` (db.py lines 64-84):
false when `auth_logs` does not exist; otherwise true when some declared
foreign key has lowercased referenced-table name `users_old`, or the
stored creation text mentions `users_old` (lowercased substring scan).
Totality of this Lean function mirrors the no-throw contract. -/
def auth_logs_references_users_old (s : DBState) : Bool :=
  match s.authLogs with
  | none => false
  | some t =>
      t.fks.any (fun fk => pyLower (fk.getD "") == "users_old")
      || isSub "users_old" (pyLower t.sql)

/-- Stored creation text of the freshly recreated `auth_logs` table
(db.py lines 101-118; SQLite stores the statement text without the
IF NOT EXISTS clause). -/
def authLogsFreshSQL : String :=
  "CREATE TABLE auth_logs (\n" ++
  "            id INTEGER PRIMARY KEY AUTOINCREMENT,\n" ++
  "            user_id INTEGER,\n" ++
  "            nickname TEXT,\n" ++
  "            fullname TEXT,\n" ++
  "            role TEXT,\n" ++
  "            action TEXT NOT NULL,\n" ++
  "            success INTEGER NOT NULL DEFAULT 1,\n" ++
  "            ip TEXT,\n" ++
  "            user_agent TEXT,\n" ++
  "            details TEXT,\n" ++
  "            created_at_utc TEXT NOT NULL,\n" ++
  "            FOREIGN KEY(user_id) REFERENCES users(id) ON DELETE SET NULL\n" ++
  "        )"

/-- The freshly recreated `auth_logs` table definition. -/
def authLogsFresh : TableInfo :=
  { sql := authLogsFreshSQL
    cols := ["id", "user_id", "nickname", "fullname", "role", "action",
             "success", "ip", "user_agent", "details", "created_at_utc"]
    defaults := [("success", Value.int 1)]
    fks := [some "users"]
    rows := [] }

/-- Embedding of `_rebuild_auth_logs` (db.py lines 87-132): disable FK
enforcement, rename `auth_logs` aside, recreate it with the foreign key
pointing at `users(id)`, copy the common columns back, drop the renamed
copy, re-enable FK enforcement.  The net effect on the visible state is
recorded; the transient `auth_logs_old` table is created and dropped
entirely inside this step. -/
def rebuild_auth_logs (s : DBState) : DBState :=
  match s.authLogs with
  | none => s
  | some al =>
      { s with
          authLogs := some (copy_table_data al authLogsFresh)
          fkEnabled := true }

/-- Stored creation text of the freshly recreated `users` table
(db.py lines 163-181). -/
def usersFreshSQL : String :=
  "CREATE TABLE users (\n" ++
  "            id INTEGER PRIMARY KEY AUTOINCREMENT,\n" ++
  "            fullname TEXT NOT NULL,\n" ++
  "            nickname TEXT UNIQUE NOT NULL,\n" ++
  "            password TEXT NOT NULL,\n" ++
  "            role TEXT NOT NULL CHECK(role IN (\x27User\x27, \x27Admin\x27, \x27Deputy\x27)),\n" ++
  "            must_change_password INTEGER NOT NULL DEFAULT 0,\n" ++
  "            approved INTEGER NOT NULL DEFAULT 1,\n" ++
  "            approved_by INTEGER,\n" ++
  "            approved_at_utc TEXT,\n" ++
  "            created_at_utc TEXT,\n" ++
  "            q1 TEXT, a1 TEXT,\n" ++
  "            q2 TEXT, a2 TEXT,\n" ++
  "            q3 TEXT, a3 TEXT\n" ++
  "        )"

/-- The freshly recreated `users` table definition. -/
def usersFresh : TableInfo :=
  { sql := usersFreshSQL
    cols := ["id", "fullname", "nickname", "password", "role",
             "must_change_password", "approved", "approved_by",
             "approved_at_utc", "created_at_utc",
             "q1", "a1", "q2", "a2", "q3", "a3"]
    defaults := [("must_change_password", Value.int 0), ("approved", Value.int 1)]
    fks := []
    rows := [] }

/-- Trigger predicate of the constraint rebuild (db.py line 151): the
stored creation text contains `check` and `role` but not `deputy`,
case-insensitively. -/
def usersNeedsRebuild (sql : String) : Bool :=
  isSub "check" (pyLower sql) && isSub "role" (pyLower sql)
    && !(isSub "deputy" (pyLower sql))

/-- Post-copy row fixups of the rebuild (db.py lines 186-190): stamp a
missing or empty `created_at_utc` with now, and set NULL `approved` to 1. -/
def backfillUsersRow (now : String) (r : Row) : Row :=
  let r1 :=
    if rget r "created_at_utc" = Value.null ∨ rget r "created_at_utc" = Value.text ""
    then rset r "created_at_utc" (Value.text now) else r
  if rget r1 "approved" = Value.null then rset r1 "approved" (Value.int 1) else r1

/-- Apply the post-copy row fixups to every row of a table. -/
def backfillUsersCols (now : String) (t : TableInfo) : TableInfo :=
  { t with rows := t.rows.map (backfillUsersRow now) }

/-- Foreign-key retargeting performed silently by the engine on
`ALTER TABLE users RENAME TO users_old`: every dependent foreign key
naming `users` now names `users_old`. -/
def retargetFk (fk : Option String) : Option String :=
  if pyLower (fk.getD "") == "users" then some "users_old" else fk

/-- Effect of renaming `users` to `users_old` on the database state; the
dependent `auth_logs` foreign keys are repointed when the engine does so. -/
def renameUsersEffect (s : DBState) (u : TableInfo) : DBState :=
  { s with
      users := none
      usersOld := some u
      authLogs :=
        if s.renameRepointsFks
        then s.authLogs.map (fun t => { t with fks := t.fks.map retargetFk })
        else s.authLogs }

/-- Steps of the users rebuild, for stating ordering properties. -/
inductive Ev where
  | fkOff : Ev
  | renameUsers : Ev
  | createUsers : Ev
  | copyUsers : Ev
  | backfillUsers : Ev
  | repairAuthLogs : Ev
  | dropUsersOld : Ev
  | fkOn : Ev
deriving DecidableEq, Repr

/-- The state right after the rename, recreate, copy and row-fixup steps,
at which `_rebuild_users_table_if_needed` checks whether `auth_logs` got
repointed (db.py line 194); the shadow `users_old` still exists here. -/
def usersCheckpointState (s : DBState) (u : TableInfo) : DBState :=
  { renameUsersEffect { s with fkEnabled := false } u with
      users := some (backfillUsersCols s.now (copy_table_data u usersFresh)) }

/-- Final state of a rebuild that actually runs: the checkpoint state with
`auth_logs` conditionally repaired, the shadow `users_old` dropped, and FK
enforcement restored. -/
def usersRebuildFinal (s : DBState) (u : TableInfo) : DBState :=
  let s5 := usersCheckpointState s u
  let s6 := if auth_logs_references_users_old s5 then rebuild_auth_logs s5 else s5
  { s6 with usersOld := none, fkEnabled := true }

/-- Step list of a rebuild that actually runs, each step paired with the
state in which it executes. -/
def usersRebuildTrace (s : DBState) (u : TableInfo) : List (Ev × DBState) :=
  let s1 := { s with fkEnabled := false }
  let s2 := renameUsersEffect s1 u
  let s3 := { s2 with users := some usersFresh }
  let s4 := { s3 with users := some (copy_table_data u usersFresh) }
  let s5 := usersCheckpointState s u
  let s6 := if auth_logs_references_users_old s5 then rebuild_auth_logs s5 else s5
  let s7 := { s6 with usersOld := none }
  [(Ev.fkOff, s), (Ev.renameUsers, s1), (Ev.createUsers, s2),
   (Ev.copyUsers, s3), (Ev.backfillUsers, s4)]
  ++ (if auth_logs_references_users_old s5 then [(Ev.repairAuthLogs, s5)] else [])
  ++ [(Ev.dropUsersOld, s6), (Ev.fkOn, s7)]

/-- Embedding of `_rebuild_users_table_if_needed` (db.py lines 135-202),
returning the final state together with the executed steps, each paired
with the state in which it runs.  When `users` is absent or its creation
text fails the trigger predicate, nothing runs. -/
def rebuild_users_table_if_needed (s : DBState) : DBState × List (Ev × DBState) :=
  match s.users with
  | none => (s, [])
  | some u =>
      if usersNeedsRebuild u.sql then (usersRebuildFinal s u, usersRebuildTrace s u)
      else (s, [])

/-- A state whose `auth_logs` declares a foreign key on `Users_OLD`. -/
def demoRepointedState : DBState :=
  { users := none
    usersOld := none
    authLogs := some
      { sql := "CREATE TABLE auth_logs (id INTEGER, user_id INTEGER)"
        cols := ["id", "user_id"]
        defaults := []
        fks := [some "Users_OLD"]
        rows := [] }
    fkEnabled := true
    renameRepointsFks := true
    now := "2026-01-01T00:00:00" }

/-- A state whose users table already carries the corrected constraint. -/
def demoCurrentState : DBState :=
  { users := some { usersFresh with rows := [[("id", Value.int 1)]] }
    usersOld := none
    authLogs := none
    fkEnabled := true
    renameRepointsFks := true
    now := "2026-01-01T00:00:00" }

/-- A users table still carrying the outdated role constraint. -/
def demoOldUsers : TableInfo :=
  { sql := "CREATE TABLE users (id INTEGER PRIMARY KEY AUTOINCREMENT, role TEXT NOT NULL CHECK(role IN (\x27User\x27, \x27Admin\x27)))"
    cols := ["id", "role"]
    defaults := []
    fks := []
    rows := [[("id", Value.int 1), ("role", Value.text "Admin")]] }

/-- A state about to rebuild: outdated users constraint, an auth_logs
table referencing users, and an engine that repoints FKs on rename. -/
def demoPreRebuildState : DBState :=
  { users := some demoOldUsers
    usersOld := none
    authLogs := some
      { sql := "CREATE TABLE auth_logs (id INTEGER PRIMARY KEY AUTOINCREMENT, user_id INTEGER, FOREIGN KEY(user_id) REFERENCES users(id))"
        cols := ["id", "user_id"]
        defaults := []
        fks := [some "users"]
        rows := [] }
    fkEnabled := true
    renameRepointsFks := true
    now := "2026-01-01T00:00:00" }

/-!
Model of `_backfill_sale_items` (src/database/db.py lines 803-916): for
every sales row with zero matching sale_items rows, synthesize child rows
from whichever legacy column layout the row carries, most specific first.
The state carries the sales column set (the code reads it with
`PRAGMA table_info(sales)`), the sales rows, whether `sale_items` exists,
its rows, and the airlines list used for ticket labels.
-/

/-- One row of the normalized `sale_items` child table, with the fields
`_insert_item` populates.  Amounts are rationals standing in for floats;
`fee_source` and the other TEXT fields hold the stored text. -/
structure SaleItem where
  sale_id : Int
  fee_source : String
  fee_id : Int
  fee_key : String
  fee_name : String
  amount : ℚ
  currency : String
  quantity : Int
  total_amount : ℚ
  created_at_utc : String
deriving DecidableEq, Repr

/-- One row of `airlines` as read by `SELECT id, name, code FROM airlines`. -/
structure AirlineRow where
  id : Int
  name : Value
  code : Value
deriving DecidableEq, Repr

/-- State seen by the backfill: the sales table (columns and rows), the
`sale_items` table (existence flag and rows) and the airlines rows. -/
structure SalesState where
  salesCols : List String
  sales : List Row
  saleItemsExists : Bool
  saleItems : List SaleItem
  airlines : List AirlineRow
deriving DecidableEq

/-- The sales-row id a child is matched against (`si.sale_id = s.id`). -/
def saleIdOf (r : Row) : Int :=
  pyInt (rget r "id")

/-- Embedding of `_insert_item` (db.py lines 839-861): Python-falsy
defaulting of every field, `total = (amount or 0) * (qty or 1)`. -/
def mkSaleItem (saleId : Int) (now : String)
    (source feeId feeKey feeName amount currency qty : Value) : SaleItem :=
  { sale_id := saleId
    fee_source := vStr source
    fee_id := pyInt (pyOr feeId (Value.int 0))
    fee_key := vStr (pyOr feeKey (Value.text ""))
    fee_name := vStr (pyOr feeName (Value.text ""))
    amount := pyRat (pyOr amount (Value.int 0))
    currency := vStr (pyOr currency (Value.text "EUR"))
    quantity := pyInt (pyOr qty (Value.int 1))
    total_amount := pyRat (pyOr amount (Value.int 0)) * pyRat (pyOr qty (Value.int 1))
    created_at_utc := now }

/-- Embedding of `_airline_label` (db.py lines 827-837): falsy airline id
or unknown airline yields the plain label; otherwise the airline name,
with the code in parentheses when it is non-empty.  The dict built by
`{r[\x27id\x27]: r for r in rows}` keeps the last row per id. -/
def airlineLabel (al : List AirlineRow) (v : Value) : String :=
  if truthy v then
    match v with
    | Value.int n =>
        match al.reverse.find? (fun a => a.id == n) with
        | none => "Plane Ticket"
        | some a =>
            if truthy a.code
            then vStr a.name ++ " (" ++ vStr a.code ++ ") Plane Ticket"
            else vStr a.name ++ " Plane Ticket"
    | _ => "Plane Ticket"
  else "Plane Ticket"

/-- Children synthesized for one parent row (the body of the row loop,
db.py lines 863-914): slot-based layout first (`airline_fee_name` /
`airport_fee_name`, plus a ticket slot), then the flat layout
(`fee_name`), then nothing. -/
def itemsForRow (cols : List String) (al : List AirlineRow) (now : String) (r : Row) :
    List SaleItem :=
  if "airline_fee_name" ∈ cols
      ∧ (truthy (rget r "airline_fee_name") = true ∨ truthy (rget r "airport_fee_name") = true) then
    (if truthy (rget r "airline_fee_name") = true then
      [mkSaleItem (saleIdOf r) now (Value.text "airline")
        (if "airline_fee_id" ∈ cols then rget r "airline_fee_id" else Value.int 0)
        (if "airline_fee_key" ∈ cols then rget r "airline_fee_key" else Value.text "")
        (pyOr (rget r "airline_fee_name") (Value.text ""))
        (if "airline_amount" ∈ cols then rget r "airline_amount" else rget r "amount")
        (Value.text "EUR")
        (if "airline_qty" ∈ cols then rget r "airline_qty" else Value.int 1)]
     else [])
    ++ (if truthy (rget r "airport_fee_name") = true then
      [mkSaleItem (saleIdOf r) now (Value.text "airport")
        (if "airport_fee_id" ∈ cols then rget r "airport_fee_id" else Value.int 0)
        (if "airport_fee_key" ∈ cols then rget r "airport_fee_key" else Value.text "")
        (pyOr (rget r "airport_fee_name") (Value.text ""))
        (if "airport_amount" ∈ cols then rget r "airport_amount" else rget r "amount")
        (Value.text "EUR")
        (if "airport_qty" ∈ cols then rget r "airport_qty" else Value.int 1)]
     else [])
    ++ (if "ticket_qty" ∈ cols ∧ 0 < pyRat (pyOr (rget r "ticket_qty") (Value.int 0)) then
      [mkSaleItem (saleIdOf r) now (Value.text "ticket")
        (Value.int 0)
        (Value.text "TICKET")
        (Value.text (airlineLabel al (rget r "airline_id")))
        (if "ticket_amount" ∈ cols then rget r "ticket_amount" else Value.int 0)
        (Value.text "EUR")
        (rget r "ticket_qty")]
     else [])
  else if "fee_name" ∈ cols ∧ truthy (rget r "fee_name") = true then
    [mkSaleItem (saleIdOf r) now
      (pyOr (rget r "fee_source") (Value.text "airline"))
      (if "fee_id" ∈ cols then rget r "fee_id" else Value.int 0)
      (if "fee_key" ∈ cols then rget r "fee_key" else Value.text "")
      (rget r "fee_name")
      (if "amount" ∈ cols then rget r "amount" else Value.int 0)
      (if "currency" ∈ cols then rget r "currency" else Value.text "EUR")
      (if "quantity" ∈ cols then rget r "quantity" else Value.int 1)]
  else []

/-- Does some existing child row match this sales row
(`EXISTS (SELECT 1 FROM sale_items si WHERE si.sale_id = s.id)`)? -/
def saleMatches (items : List SaleItem) (r : Row) : Bool :=
  items.any (fun it => it.sale_id == saleIdOf r)

/-- The parent rows the backfill selects: sales rows with zero children. -/
def zeroChildRows (s : SalesState) : List Row :=
  s.sales.filter (fun r => ! saleMatches s.saleItems r)

/-- Embedding of `_backfill_sale_items` (db.py lines 803-916): no-op when
`sale_items` does not exist or no parent lacks children; otherwise append
the synthesized children of every zero-child parent, in row order. -/
def backfill_sale_items (now : String) (s : SalesState) : SalesState :=
  if ! s.saleItemsExists then s
  else
    let parents := zeroChildRows s
    if parents.isEmpty then s
    else
      { s with
          saleItems :=
            s.saleItems ++ parents.flatMap (itemsForRow s.salesCols s.airlines now) }

/-- Well-formedness of a row fetched by `SELECT s.* FROM sales s`: only
columns of the sales table can carry a value (a key the row does not have
reads as NULL, matching `dict.get`). -/
def rowOk (cols : List String) (r : Row) : Prop :=
  ∀ c : String, c ∉ cols → rget r c = Value.null

/-- Spec-side (section 4.5 of the spec): the children of a slot-shaped
parent — one per non-empty slot, the ticket slot firing when the source
ticket quantity is positive, each amount drawn from the slot-specific
column and falling back to the shared `amount` column when that column is
absent from the schema. -/
def slotItemsSpec (cols : List String) (al : List AirlineRow) (now : String) (r : Row) :
    List SaleItem :=
  (if truthy (rget r "airline_fee_name") = true then
    [mkSaleItem (saleIdOf r) now (Value.text "airline")
      (if "airline_fee_id" ∈ cols then rget r "airline_fee_id" else Value.int 0)
      (if "airline_fee_key" ∈ cols then rget r "airline_fee_key" else Value.text "")
      (pyOr (rget r "airline_fee_name") (Value.text ""))
      (if "airline_amount" ∈ cols then rget r "airline_amount" else rget r "amount")
      (Value.text "EUR")
      (if "airline_qty" ∈ cols then rget r "airline_qty" else Value.int 1)]
   else [])
  ++ (if truthy (rget r "airport_fee_name") = true then
    [mkSaleItem (saleIdOf r) now (Value.text "airport")
      (if "airport_fee_id" ∈ cols then rget r "airport_fee_id" else Value.int 0)
      (if "airport_fee_key" ∈ cols then rget r "airport_fee_key" else Value.text "")
      (pyOr (rget r "airport_fee_name") (Value.text ""))
      (if "airport_amount" ∈ cols then rget r "airport_amount" else rget r "amount")
      (Value.text "EUR")
      (if "airport_qty" ∈ cols then rget r "airport_qty" else Value.int 1)]
   else [])
  ++ (if 0 < pyRat (pyOr (rget r "ticket_qty") (Value.int 0)) then
    [mkSaleItem (saleIdOf r) now (Value.text "ticket")
      (Value.int 0)
      (Value.text "TICKET")
      (Value.text (airlineLabel al (rget r "airline_id")))
      (if "ticket_amount" ∈ cols then rget r "ticket_amount" else Value.int 0)
      (Value.text "EUR")
      (rget r "ticket_qty")]
   else [])

/-- Spec-side (section 4.5 of the spec): the single child of a flat-shaped
parent, built from the flat columns. -/
def flatItemSpec (cols : List String) (now : String) (r : Row) : SaleItem :=
  mkSaleItem (saleIdOf r) now
    (pyOr (rget r "fee_source") (Value.text "airline"))
    (if "fee_id" ∈ cols then rget r "fee_id" else Value.int 0)
    (if "fee_key" ∈ cols then rget r "fee_key" else Value.text "")
    (rget r "fee_name")
    (if "amount" ∈ cols then rget r "amount" else Value.int 0)
    (if "currency" ∈ cols then rget r "currency" else Value.text "EUR")
    (if "quantity" ∈ cols then rget r "quantity" else Value.int 1)

/-- The column set of the sales table after `_migrate_sales_table`
(db.py lines 623-695 and the CREATE TABLE in init_db). -/
def salesColsAll : List String :=
  ["id", "sale_group_id", "airline_id", "destination_id", "pnr",
   "passenger_name", "fee_source", "fee_id", "fee_key", "fee_name",
   "amount", "currency", "quantity", "total_amount", "sold_at_utc",
   "created_by", "payment_method", "cash_amount", "card_amount",
   "airline_fee_id", "airline_fee_key", "airline_fee_name",
   "airline_amount", "airline_qty", "airline_total",
   "airport_fee_id", "airport_fee_key", "airport_fee_name",
   "airport_amount", "airport_qty", "airport_total",
   "ticket_qty", "ticket_amount", "ticket_total", "grand_total"]

/-- A slot-shape sales row with two non-empty slots, a positive ticket
quantity, and an id of 1. -/
def demoSlotRow : Row :=
  [("id", Value.int 1),
   ("airline_fee_name", Value.text "LANDING"),
   ("airline_amount", Value.real 5),
   ("airline_qty", Value.int 1),
   ("airport_fee_name", Value.text "SERVICE"),
   ("airport_amount", Value.real 3),
   ("airport_qty", Value.int 4),
   ("ticket_qty", Value.int 2),
   ("ticket_amount", Value.real 10),
   ("airline_id", Value.int 0)]

/-- Spec-side total of one synthesized child: source amount (0 when
Python-falsy: absent, zero or empty) times source quantity (1 when
Python-falsy: absent or zero). -/
def specTotal (amount qty : Value) : ℚ :=
  pyRat (pyOr amount (Value.int 0)) * pyRat (pyOr qty (Value.int 1))

def zeroQtyRow : Row :=
  [("id", Value.int 1),
   ("airline_fee_name", Value.text "LANDING"),
   ("airline_amount", Value.real 10),
   ("airline_qty", Value.int 0)]

/-- A sales row that already has a child (id 3). -/
def demoRowC : Row :=
  [("id", Value.int 3), ("fee_name", Value.text "OLD"), ("amount", Value.int 7)]

/-- A pre-existing child of sales row 3. -/
def demoChildC : SaleItem :=
  { sale_id := 3, fee_source := "airline", fee_id := 0, fee_key := "", fee_name := "OLD",
    amount := 7, currency := "EUR", quantity := 1, total_amount := 7,
    created_at_utc := "t-old" }

/-- A store with one legacy flat-shape parent (id 1, no children yet) and
one parent (id 3) that already has a child. -/
def demoSalesState : SalesState :=
  { salesCols := salesColsAll
    sales := [[("id", Value.int 1), ("fee_name", Value.text "LANDING"),
               ("amount", Value.int 10), ("quantity", Value.int 2)], demoRowC]
    saleItemsExists := true
    saleItems := [demoChildC]
    airlines := [] }

/-!
Model of `_backup_db_on_startup` (src/database/db.py lines 1252-1280).
The filesystem state records whether the store file exists, what occupies
the backups-directory path (nothing, a regular file, or a directory with
its file names), and which operations the OS will fail: the copy, the
directory listing, and the removal of particular files.  `shutil.copy2`,
`os.listdir` and `os.remove` run inside try/except OSError blocks;
`os.makedirs(..., exist_ok=True)` does not, and raises when the path is
occupied by a non-directory. -/

/-- What occupies the backups-directory path. -/
inductive FsEntry where
  | absent : FsEntry
  | file : FsEntry
  | dir : List String → FsEntry
deriving DecidableEq, Repr

/-- Filesystem state and OS fault model for the backup rotator. -/
structure FsState where
  dbExists : Bool
  backups : FsEntry
  copyFails : Bool
  listFails : Bool
  removeFails : List String
  ts : String
deriving DecidableEq, Repr

/-- Name of the timestamped backup file. -/
def backupFileName (ts : String) : String :=
  "airport_app_" ++ ts ++ ".db"

/-- Files in the backups directory (empty for other entries). -/
def dirFiles : FsEntry → List String
  | FsEntry.dir fs => fs
  | _ => []

/-- Python `s.startswith(p)`. -/
def strStartsWith (s p : String) : Bool :=
  p.data.isPrefixOf s.data

/-- Python `s.endswith(p)`. -/
def strEndsWith (s p : String) : Bool :=
  p.data.reverse.isPrefixOf s.data.reverse

/-- The guarded `shutil.copy2` call: on failure the state is unchanged
(the OSError is swallowed); on success the backup file appears. -/
def copyStep (fs : FsState) : FsState :=
  if fs.copyFails then fs
  else
    let files := dirFiles fs.backups
    let copied := if backupFileName fs.ts ∈ files then files else files ++ [backupFileName fs.ts]
    { fs with backups := FsEntry.dir copied }

/-- The guarded prune block: list the `airport_app_*.db` files, sort by
name, and delete the oldest beyond 30; a failing listing skips the block,
a failing removal skips that file (both swallowed). -/
def pruneStep (fs : FsState) : FsState :=
  if fs.listFails then fs
  else
    let files := (dirFiles fs.backups).filter
      (fun f => strStartsWith f "airport_app_" && strEndsWith f ".db")
    let sorted := List.insertionSort (fun a b => a ≤ b) files
    let excess := sorted.length - 30
    let kept := (dirFiles fs.backups).filter
      (fun f => !((sorted.take excess).contains f && !(fs.removeFails.contains f)))
    if 0 < excess then { fs with backups := FsEntry.dir kept }
    else fs

/-- Embedding of `_backup_db_on_startup`: nothing when the store file does
not exist; otherwise `os.makedirs(backups_dir, exist_ok=True)` runs
unguarded — it raises when the path is occupied by a non-directory — and
then the guarded copy and prune steps run. -/
def backup_db_on_startup (fs : FsState) : Except String FsState :=
  if !fs.dbExists then Except.ok fs
  else
    match fs.backups with
    | FsEntry.file => Except.error "FileExistsError"
    | FsEntry.absent => Except.ok (pruneStep (copyStep { fs with backups := FsEntry.dir [] }))
    | FsEntry.dir _ => Except.ok (pruneStep (copyStep fs))

/-- A store file next to a regular file named `backups`. -/
def obstructedFs : FsState :=
  { dbExists := true, backups := FsEntry.file, copyFails := false,
    listFails := false, removeFails := [], ts := "2026-01-01_000000" }

/-- The same machine but with a real backups directory and a copy that
fails. -/
def failingCopyFs : FsState :=
  { dbExists := true, backups := FsEntry.dir ["airport_app_2025-01-01_000000.db"],
    copyFails := true, listFails := false, removeFails := [], ts := "2026-01-01_000000" }

/-!
Model of `ensure_default_admin` (src/database/db.py lines 1343-1379): if no
users row has nickname `Admin`, insert one default Admin row, adding the
optional columns only when the live schema has them.  The hash function is
a parameter, as in the source.  The modelled row lists the explicitly
inserted columns; unlisted columns take their DDL defaults.
-/

/-- State of the users table as `ensure_default_admin` sees it. -/
structure UsersState where
  cols : List String
  rows : List Row
deriving DecidableEq

/-- The row the bootstrap inserts (db.py lines 1359-1373): base columns
plus each optional column present in the live schema. -/
def adminRow (hashed : String) (now : String) (cols : List String) : Row :=
  [("fullname", Value.text "Admin"), ("nickname", Value.text "Admin"),
   ("password", Value.text hashed), ("role", Value.text "Admin")]
  ++ (if "must_change_password" ∈ cols then [("must_change_password", Value.int 1)] else [])
  ++ (if "approved" ∈ cols then [("approved", Value.int 1)] else [])
  ++ (if "approved_at_utc" ∈ cols then [("approved_at_utc", Value.text now)] else [])
  ++ (if "created_at_utc" ∈ cols then [("created_at_utc", Value.text now)] else [])

/-- The guard query `SELECT 1 FROM users WHERE nickname = \x27Admin\x27`. -/
def hasAdminRow (rows : List Row) : Bool :=
  rows.any (fun r => rget r "nickname" == Value.text "Admin")

/-- Embedding of `ensure_default_admin`. -/
def ensure_default_admin (hasher : String → String) (now : String) (s : UsersState) :
    UsersState :=
  if hasAdminRow s.rows then s
  else { s with rows := s.rows ++ [adminRow (hasher "12345") now s.cols] }

/-- A users table with the optional columns and no Admin row yet. -/
def demoUsersState : UsersState :=
  { cols := ["id", "fullname", "nickname", "password", "role",
             "must_change_password", "approved", "approved_at_utc", "created_at_utc"]
    rows := [[("id", Value.int 5), ("nickname", Value.text "bob"),
              ("password", Value.text "x"), ("role", Value.text "User")]] }

/-!
Theorems: helper lemmas first, then the properties of the embedded
operations, each followed by its concrete-input witness where the
statement carries hypotheses.
-/

theorem mem_sortedInter {c : String} {l₁ l₂ : List String} :
    (c ∈ List.insertionSort (fun a b => a ≤ b) (l₁.inter l₂)) ↔ (c ∈ l₁ ∧ c ∈ l₂) := by
  rw [List.mem_insertionSort]
  exact List.mem_inter_iff

/-- C3. `_copy_table_data` inserts into `dst` exactly one row per row of
`src`; each inserted row carries, for every destination column, the source
value when that column lies in the name-intersection of the two column
sets and the destination default otherwise; when the intersection is
empty, the destination table is returned unchanged. -/
theorem copy_table_data_copies_intersection (src dst : TableInfo) :
    (src.cols.inter dst.cols = [] → copy_table_data src dst = dst)
    ∧ (src.cols.inter dst.cols ≠ [] →
        copy_table_data src dst =
          { dst with
              rows := dst.rows ++ src.rows.map (fun r =>
                dst.cols.map (fun c =>
                  (c, if c ∈ src.cols ∧ c ∈ dst.cols then rget r c else dflt dst c))) }) := by
  constructor
  · intro h
    simp [copy_table_data, h, insertFromSelect]
  · intro h
    have hne : ¬ ((List.insertionSort (fun a b => a ≤ b) (src.cols.inter dst.cols)).isEmpty = true) := by
      simp only [List.isEmpty_iff]
      intro hs
      exact h (List.eq_nil_of_length_eq_zero
        (by simpa using congrArg List.length hs))
    simp only [copy_table_data, insertFromSelect]
    rw [if_neg hne]
    congr 1
    congr 1
    refine List.map_congr_left (fun r _ => ?_)
    refine List.map_congr_left (fun c _ => ?_)
    by_cases hc : c ∈ src.cols ∧ c ∈ dst.cols
    · rw [if_pos (mem_sortedInter.mpr hc), if_pos hc]
    · rw [if_neg (fun hm => hc (mem_sortedInter.mp hm)), if_neg hc]

/-- Witness for C3 at a concrete pair of tables: a shared column `a` is
copied, a destination-only column `b` takes its default, and a pair with
disjoint columns is left unchanged. -/
theorem copy_table_data_copies_intersection_witness :
    (copy_table_data
        { sql := "", cols := ["a", "z"], defaults := [], fks := [],
          rows := [[("a", Value.int 7), ("z", Value.int 9)]] }
        { sql := "", cols := ["a", "b"], defaults := [("b", Value.int 5)], fks := [],
          rows := [] }).rows
      = [[("a", Value.int 7), ("b", Value.int 5)]] := by
  have h := (copy_table_data_copies_intersection
    { sql := "", cols := ["a", "z"], defaults := [], fks := [],
      rows := [[("a", Value.int 7), ("z", Value.int 9)]] }
    { sql := "", cols := ["a", "b"], defaults := [("b", Value.int 5)], fks := [],
      rows := [] }).2 (by decide)
  rw [h]
  decide

theorem copy_table_data_sql (src dst : TableInfo) :
    (copy_table_data src dst).sql = dst.sql := by
  simp only [copy_table_data]
  split <;> rfl

theorem copy_table_data_fks (src dst : TableInfo) :
    (copy_table_data src dst).fks = dst.fks := by
  simp only [copy_table_data]
  split <;> rfl

theorem rebuild_auth_logs_users (s : DBState) :
    (rebuild_auth_logs s).users = s.users := by
  unfold rebuild_auth_logs
  cases s.authLogs <;> rfl

theorem backfillUsersCols_sql (now : String) (t : TableInfo) :
    (backfillUsersCols now t).sql = t.sql := rfl

theorem refs_false_of_conditional_repair (s5 : DBState) :
    auth_logs_references_users_old
      (if auth_logs_references_users_old s5 then rebuild_auth_logs s5 else s5) = false := by
  by_cases h : auth_logs_references_users_old s5 = true
  · rw [if_pos h]
    unfold rebuild_auth_logs
    cases hA : s5.authLogs with
    | none =>
        unfold auth_logs_references_users_old at h
        rw [hA] at h
        exact absurd h (by simp)
    | some al =>
        unfold auth_logs_references_users_old
        simp only
        rw [copy_table_data_sql, copy_table_data_fks]
        decide
  · rw [if_neg h]
    simpa using h

/-- C4. `_auth_logs_references_users_old` returns false when `auth_logs`
does not exist (its guard also makes it read nothing, so it cannot throw);
when the table exists it returns true exactly when some declared foreign
key has a referenced-table name case-insensitively equal to `users_old`,
or the stored creation text contains the substring `users_old`
case-insensitively. -/
theorem auth_logs_detection_correct (s : DBState) :
    (s.authLogs = none → auth_logs_references_users_old s = false)
    ∧ (∀ t : TableInfo, s.authLogs = some t →
        (auth_logs_references_users_old s = true ↔
          (∃ fk ∈ t.fks, pyLower (fk.getD "") = pyLower "users_old")
          ∨ isSub (pyLower "users_old") (pyLower t.sql) = true)) := by
  constructor
  · intro h
    simp [auth_logs_references_users_old, h]
  · intro t ht
    have hlow : pyLower "users_old" = "users_old" := by decide
    rw [hlow]
    simp [auth_logs_references_users_old, ht, List.any_eq_true, Bool.or_eq_true, beq_iff_eq]

/-- Witness for C4: on a concrete state whose `auth_logs` declares a
foreign key on `Users_OLD` (mixed case, creation text silent), detection
reports true. -/
theorem auth_logs_detection_correct_witness :
    auth_logs_references_users_old demoRepointedState = true := by
  refine ((auth_logs_detection_correct demoRepointedState).2 _ rfl).mpr ?_
  exact Or.inl ⟨some "Users_OLD", by decide, by decide⟩

theorem usersRebuildFinal_users (s : DBState) (u : TableInfo) :
    (usersRebuildFinal s u).users
      = some (backfillUsersCols s.now (copy_table_data u usersFresh)) := by
  simp only [usersRebuildFinal]
  split
  · rw [rebuild_auth_logs_users]
    rfl
  · rfl

/-- C1. Constraint-rebuild idempotence: when the stored creation text of
the users table already carries the corrected role constraint — the
trigger predicate (text containing `check` and `role` but not `deputy`,
case-insensitively) is false — `_rebuild_users_table_if_needed` performs
no steps and returns the state unchanged; consequently running it twice
is the same as running it once, the second run being a no-op. -/
theorem rebuild_users_idempotent (s : DBState) :
    ((∀ u : TableInfo, s.users = some u → usersNeedsRebuild u.sql = false) →
        rebuild_users_table_if_needed s = (s, []))
    ∧ rebuild_users_table_if_needed (rebuild_users_table_if_needed s).1
        = ((rebuild_users_table_if_needed s).1, []) := by
  have hfresh : usersNeedsRebuild usersFreshSQL = false := by decide
  have hnoop : ∀ w : DBState, (∀ u : TableInfo, w.users = some u → usersNeedsRebuild u.sql = false) →
      rebuild_users_table_if_needed w = (w, []) := by
    intro w h
    unfold rebuild_users_table_if_needed
    cases hw : w.users with
    | none => rfl
    | some u => simp [h u hw]
  constructor
  · exact hnoop s
  · cases hu : s.users with
    | none =>
        have h1 : rebuild_users_table_if_needed s = (s, []) := by
          unfold rebuild_users_table_if_needed
          rw [hu]
        rw [h1]
        exact hnoop s (fun u h => absurd (hu ▸ h) (by simp))
    | some u =>
        by_cases hn : usersNeedsRebuild u.sql = true
        · have h1 : rebuild_users_table_if_needed s = (usersRebuildFinal s u, usersRebuildTrace s u) := by
            unfold rebuild_users_table_if_needed
            rw [hu]
            simp [hn]
          rw [h1]
          refine hnoop (usersRebuildFinal s u) ?_
          intro t ht
          rw [usersRebuildFinal_users] at ht
          have ht2 := Option.some.inj ht
          rw [← ht2, backfillUsersCols_sql, copy_table_data_sql]
          exact hfresh
        · have h1 : rebuild_users_table_if_needed s = (s, []) := by
            unfold rebuild_users_table_if_needed
            rw [hu]
            simp [hn]
          rw [h1]
          refine hnoop s ?_
          intro t ht
          rw [hu] at ht
          rw [← Option.some.inj ht]
          simpa using hn

/-- Witness for C1: on a concrete state whose users table already has the
corrected constraint, the rebuild performs no steps and changes nothing. -/
theorem rebuild_users_idempotent_witness :
    rebuild_users_table_if_needed demoCurrentState = (demoCurrentState, []) :=
  (rebuild_users_idempotent demoCurrentState).1
    (fun u h => by
      injection h with h2
      rw [← h2]
      decide)

/-- C2. Repair-before-drop ordering: in no execution of the users rebuild
is the shadow `users_old` dropped while `auth_logs` still references it —
every drop step runs in a state where the reference check is false — and
whenever `auth_logs` references `users_old` at the post-copy checkpoint,
the `auth_logs` repair step precedes the shadow drop in the executed step
list. -/
theorem repair_auth_logs_before_shadow_drop (s : DBState) :
    (∀ p ∈ (rebuild_users_table_if_needed s).2, p.1 = Ev.dropUsersOld →
        auth_logs_references_users_old p.2 = false)
    ∧ (∀ u : TableInfo, s.users = some u → usersNeedsRebuild u.sql = true →
        auth_logs_references_users_old (usersCheckpointState s u) = true →
        List.Sublist [Ev.repairAuthLogs, Ev.dropUsersOld]
          ((rebuild_users_table_if_needed s).2.map Prod.fst)) := by
  constructor
  · intro p hp hdrop
    unfold rebuild_users_table_if_needed at hp
    cases hu : s.users with
    | none =>
        rw [hu] at hp
        simp at hp
    | some u =>
        rw [hu] at hp
        dsimp only at hp
        by_cases hn : usersNeedsRebuild u.sql = true
        · rw [if_pos hn] at hp
          simp only [usersRebuildTrace, List.mem_append, List.mem_cons,
            List.not_mem_nil, or_false] at hp
          rcases hp with ((h | h | h | h | h) | h) | (h | h)
          · rw [h] at hdrop
            simp at hdrop
          · rw [h] at hdrop
            simp at hdrop
          · rw [h] at hdrop
            simp at hdrop
          · rw [h] at hdrop
            simp at hdrop
          · rw [h] at hdrop
            simp at hdrop
          · by_cases hc : auth_logs_references_users_old (usersCheckpointState s u) = true
            · rw [if_pos hc] at h
              simp only [List.mem_singleton] at h
              rw [h] at hdrop
              simp at hdrop
            · rw [if_neg hc] at h
              simp at h
          · rw [h]
            exact refs_false_of_conditional_repair (usersCheckpointState s u)
          · rw [h] at hdrop
            simp at hdrop
        · rw [if_neg hn] at hp
          simp at hp
  · intro u hu hn hc
    have h1 : rebuild_users_table_if_needed s = (usersRebuildFinal s u, usersRebuildTrace s u) := by
      unfold rebuild_users_table_if_needed
      rw [hu]
      simp [hn]
    rw [h1]
    simp only [usersRebuildTrace, hc, if_true]
    simp only [List.map_append, List.map_cons, List.map_nil]
    decide

/-- Witness for C2: on a concrete state where the rebuild runs and the
engine repoints the auth_logs foreign key at the shadow, the repair step
precedes the shadow drop in the executed step list. -/
theorem repair_auth_logs_before_shadow_drop_witness :
    List.Sublist [Ev.repairAuthLogs, Ev.dropUsersOld]
      ((rebuild_users_table_if_needed demoPreRebuildState).2.map Prod.fst) :=
  (repair_auth_logs_before_shadow_drop demoPreRebuildState).2 demoOldUsers rfl
    (by decide) (by decide)

/-- C8. Backfill frame property: `_backfill_sale_items` only ever appends
rows to `sale_items`; the sales rows (with all their legacy columns), the
sales column set, the airlines rows and the existence flag are returned
exactly as given, and the prior `sale_items` rows form a prefix of the
result. -/
theorem backfill_sale_items_frame (now : String) (s : SalesState) :
    (backfill_sale_items now s).sales = s.sales
    ∧ (backfill_sale_items now s).salesCols = s.salesCols
    ∧ (backfill_sale_items now s).airlines = s.airlines
    ∧ (backfill_sale_items now s).saleItemsExists = s.saleItemsExists
    ∧ s.saleItems <+: (backfill_sale_items now s).saleItems := by
  unfold backfill_sale_items
  split
  · exact ⟨rfl, rfl, rfl, rfl, ⟨[], by simp⟩⟩
  · dsimp only
    split
    · exact ⟨rfl, rfl, rfl, rfl, ⟨[], by simp⟩⟩
    · exact ⟨rfl, rfl, rfl, rfl, ⟨_, rfl⟩⟩

theorem rowOk_of_keys (cols : List String) (r : Row) (h : ∀ p ∈ r, p.1 ∈ cols) :
    rowOk cols r := by
  intro c hc
  induction r with
  | nil => rfl
  | cons p t ih =>
      obtain ⟨k, v⟩ := p
      have hne : (c == k) = false := by
        refine beq_eq_false_iff_ne.mpr ?_
        intro he
        exact hc (he ▸ h (k, v) (List.mem_cons_self (k, v) t))
      have step : rget ((k, v) :: t) c = rget t c := by
        unfold rget
        simp [List.lookup, hne]
      rw [step]
      exact ih (fun q hq => h q (List.mem_cons_of_mem (k, v) hq))

theorem itemsForRow_eq_spec (cols : List String) (al : List AirlineRow) (now : String)
    (r : Row) (hok : rowOk cols r) (hcol : "airline_fee_name" ∈ cols) :
    itemsForRow cols al now r =
      (if truthy (rget r "airline_fee_name") = true ∨ truthy (rget r "airport_fee_name") = true
       then slotItemsSpec cols al now r
       else if truthy (rget r "fee_name") = true then [flatItemSpec cols now r]
       else []) := by
  by_cases hs : truthy (rget r "airline_fee_name") = true ∨ truthy (rget r "airport_fee_name") = true
  · rw [if_pos hs]
    unfold itemsForRow slotItemsSpec
    rw [if_pos ⟨hcol, hs⟩]
    have hticket : ("ticket_qty" ∈ cols ∧ 0 < pyRat (pyOr (rget r "ticket_qty") (Value.int 0)))
        ↔ (0 < pyRat (pyOr (rget r "ticket_qty") (Value.int 0))) := by
      constructor
      · exact And.right
      · intro h0
        by_cases ht : "ticket_qty" ∈ cols
        · exact ⟨ht, h0⟩
        · rw [hok _ ht] at h0
          exact absurd h0 (by decide)
    simp only [hticket]
  · rw [if_neg hs]
    unfold itemsForRow
    rw [if_neg (fun hgot => hs hgot.2)]
    by_cases hf : truthy (rget r "fee_name") = true
    · have hfc : "fee_name" ∈ cols := by
        by_contra hn
        rw [hok _ hn] at hf
        exact absurd hf (by decide)
      rw [if_pos hf, if_pos ⟨hfc, hf⟩]
      rfl
    · rw [if_neg hf, if_neg (fun hgot => hf hgot.2)]

/-- C5. Backfill classification, most specific shape first: for a sales
row (the sales schema having its slot columns — `_migrate_sales_table`
guarantees `airline_fee_name` exists before backfill runs), when a slot
fee-name carries a value the slot children are emitted (airline slot,
airport slot, and ticket slot when the ticket quantity is positive, with
the documented amount fallbacks); otherwise when the flat `fee_name`
carries a value exactly one flat child is emitted; otherwise nothing is
emitted. -/
theorem backfill_classifies_most_specific_first (cols : List String) (al : List AirlineRow)
    (now : String) (r : Row) (hok : rowOk cols r) (hcol : "airline_fee_name" ∈ cols) :
    ((truthy (rget r "airline_fee_name") = true ∨ truthy (rget r "airport_fee_name") = true) →
        itemsForRow cols al now r = slotItemsSpec cols al now r)
    ∧ (¬ (truthy (rget r "airline_fee_name") = true ∨ truthy (rget r "airport_fee_name") = true) →
        truthy (rget r "fee_name") = true →
        itemsForRow cols al now r = [flatItemSpec cols now r])
    ∧ (¬ (truthy (rget r "airline_fee_name") = true ∨ truthy (rget r "airport_fee_name") = true) →
        truthy (rget r "fee_name") = false →
        itemsForRow cols al now r = []) := by
  rw [itemsForRow_eq_spec cols al now r hok hcol]
  refine ⟨fun h => ?_, fun h hf => ?_, fun h hf => ?_⟩
  · rw [if_pos h]
  · rw [if_neg h, if_pos hf]
  · rw [if_neg h, if_neg (by rw [hf]; exact Bool.false_ne_true)]

/-- Witness for C5: the slot-shape demo row is classified into its slot
children, and its emitted children are exactly the three slot items. -/
theorem backfill_classifies_most_specific_first_witness :
    itemsForRow salesColsAll [] "t0" demoSlotRow = slotItemsSpec salesColsAll [] "t0" demoSlotRow
    ∧ (itemsForRow salesColsAll [] "t0" demoSlotRow).map (fun it => it.fee_source)
        = ["airline", "airport", "ticket"] := by
  constructor
  · exact (backfill_classifies_most_specific_first salesColsAll [] "t0" demoSlotRow
      (rowOk_of_keys salesColsAll demoSlotRow (by decide)) (by decide)).1
      (Or.inl (by decide))
  · decide

/-- C7 (amended). Every child `_backfill_sale_items` creates has
`total_amount` equal to its source amount (defaulting to 0 when absent or
falsy) times its source quantity, where the quantity defaults to 1 when
absent or zero (Python-falsy), each drawn from the slot the child was
synthesized from. -/
theorem backfill_child_totals (cols : List String) (al : List AirlineRow)
    (now : String) (r : Row) (hok : rowOk cols r) (hcol : "airline_fee_name" ∈ cols) :
    (itemsForRow cols al now r).map (fun it => it.total_amount)
      = (if truthy (rget r "airline_fee_name") = true ∨ truthy (rget r "airport_fee_name") = true
         then
           (if truthy (rget r "airline_fee_name") = true then
             [specTotal (if "airline_amount" ∈ cols then rget r "airline_amount" else rget r "amount")
                (if "airline_qty" ∈ cols then rget r "airline_qty" else Value.int 1)]
            else [])
           ++ (if truthy (rget r "airport_fee_name") = true then
             [specTotal (if "airport_amount" ∈ cols then rget r "airport_amount" else rget r "amount")
                (if "airport_qty" ∈ cols then rget r "airport_qty" else Value.int 1)]
            else [])
           ++ (if 0 < pyRat (pyOr (rget r "ticket_qty") (Value.int 0)) then
             [specTotal (if "ticket_amount" ∈ cols then rget r "ticket_amount" else Value.int 0)
                (rget r "ticket_qty")]
            else [])
         else if truthy (rget r "fee_name") = true then
           [specTotal (if "amount" ∈ cols then rget r "amount" else Value.int 0)
              (if "quantity" ∈ cols then rget r "quantity" else Value.int 1)]
         else []) := by
  rw [itemsForRow_eq_spec cols al now r hok hcol]
  split
  · unfold slotItemsSpec
    by_cases ha : truthy (rget r "airline_fee_name") = true <;>
      by_cases hp : truthy (rget r "airport_fee_name") = true <;>
        by_cases ht : 0 < pyRat (pyOr (rget r "ticket_qty") (Value.int 0)) <;>
          simp [ha, hp, ht, mkSaleItem, specTotal]
  · split
    · simp [flatItemSpec, mkSaleItem, specTotal]
    · rfl

/-- Counterexample for C7 as stated: for a parent whose airline slot has
amount 10 and stored quantity 0, the synthesized child has
`total_amount = 10` (the code treats a zero quantity like an absent one,
`qty or 1`), which differs from source amount times source quantity, 0. -/
theorem backfill_child_totals_cex :
    (itemsForRow salesColsAll [] "t0" zeroQtyRow).map (fun it => it.total_amount)
        ≠ [pyRat (rget zeroQtyRow "airline_amount") * pyRat (rget zeroQtyRow "airline_qty")]
    ∧ (itemsForRow salesColsAll [] "t0" zeroQtyRow).map (fun it => it.total_amount) = [10]
    ∧ pyRat (rget zeroQtyRow "airline_amount") * pyRat (rget zeroQtyRow "airline_qty") = 0 := by
  refine ⟨?_, ?_, ?_⟩
  · simp +decide [itemsForRow, mkSaleItem, saleIdOf, rget, pyOr, pyRat, pyInt]
  · simp +decide [itemsForRow, mkSaleItem, saleIdOf, rget, pyOr, pyRat, pyInt]
  · simp +decide [rget, pyRat]

/-- Witness for C7 (amended) on the zero-quantity row: the amended
theorem applies and the child total is 10, namely 10 times the defaulted
quantity 1. -/

theorem backfill_child_totals_witness :
    (itemsForRow salesColsAll [] "t0" zeroQtyRow).map (fun it => it.total_amount)
      = [specTotal (rget zeroQtyRow "airline_amount") (rget zeroQtyRow "airline_qty")]
    ∧ specTotal (rget zeroQtyRow "airline_amount") (rget zeroQtyRow "airline_qty") = 10 := by
  constructor
  · have h := backfill_child_totals salesColsAll [] "t0" zeroQtyRow
      (rowOk_of_keys salesColsAll zeroQtyRow (by decide)) (by decide)
    rw [h]
    simp +decide [specTotal, rget, pyOr, pyRat]
  · simp +decide [specTotal, rget, pyOr, pyRat]

theorem sale_id_of_mem_itemsForRow {cols : List String} {al : List AirlineRow} {now : String}
    {r : Row} {it : SaleItem} (h : it ∈ itemsForRow cols al now r) :
    it.sale_id = saleIdOf r := by
  unfold itemsForRow at h
  split at h
  · simp only [List.mem_append] at h
    rcases h with (h | h) | h
    · split at h
      · simp only [List.mem_singleton] at h
        rw [h]
        rfl
      · simp at h
    · split at h
      · simp only [List.mem_singleton] at h
        rw [h]
        rfl
      · simp at h
    · split at h
      · simp only [List.mem_singleton] at h
        rw [h]
        rfl
      · simp at h
  · split at h
    · simp only [List.mem_singleton] at h
      rw [h]
      rfl
    · simp at h

theorem itemsForRow_nil_indep {cols : List String} {al : List AirlineRow} {r : Row}
    {now now2 : String} (h : itemsForRow cols al now r = []) :
    itemsForRow cols al now2 r = [] := by
  unfold itemsForRow at h ⊢
  split at h
  · rename_i hc
    exfalso
    rcases hc.2 with ha | hp
    · rw [if_pos ha] at h
      simp [List.append_eq_nil] at h
    · rw [if_pos hp] at h
      simp [List.append_eq_nil] at h
  · rename_i hc
    rw [if_neg hc]
    split at h
    · exact absurd h (by simp)
    · rename_i hf
      rw [if_neg hf]

theorem backfill_of_no_new (now3 : String) (w : SalesState) (hexw : w.saleItemsExists = true)
    (hnil : ∀ r ∈ zeroChildRows w, itemsForRow w.salesCols w.airlines now3 r = []) :
    backfill_sale_items now3 w = w := by
  unfold backfill_sale_items
  rw [hexw]
  simp only [Bool.not_true]
  rw [if_neg (fun hcon => Bool.false_ne_true hcon)]
  split
  · rfl
  · rw [List.flatMap_eq_nil_iff.mpr hnil, List.append_nil, ← hexw]

/-- C6. Backfill non-duplication and idempotence: running
`_backfill_sale_items` twice in a row yields the same state as running it
once (with any pair of timestamps), and a sales row that already has at
least one `sale_items` child receives no additional children — its
children are exactly the ones it had before the run. -/
theorem backfill_sale_items_idempotent (now now2 : String) (s : SalesState) :
    backfill_sale_items now2 (backfill_sale_items now s) = backfill_sale_items now s
    ∧ (∀ r ∈ s.sales, saleMatches s.saleItems r = true →
        (backfill_sale_items now s).saleItems.filter (fun it => it.sale_id == saleIdOf r)
          = s.saleItems.filter (fun it => it.sale_id == saleIdOf r)) := by
  by_cases hex : s.saleItemsExists = true
  · by_cases hz : (zeroChildRows s).isEmpty = true
    · have hgen : ∀ n3 : String, backfill_sale_items n3 s = s := by
        intro n3
        unfold backfill_sale_items
        rw [hex]
        simp only [Bool.not_true]
        rw [if_neg (fun hcon => Bool.false_ne_true hcon)]
        rw [if_pos hz]
      rw [hgen now, hgen now2]
      exact ⟨rfl, fun r hr hm => rfl⟩
    · have h1 : backfill_sale_items now s =
          { s with saleItems := s.saleItems
              ++ (zeroChildRows s).flatMap (itemsForRow s.salesCols s.airlines now) } := by
        unfold backfill_sale_items
        rw [hex]
        simp only [Bool.not_true]
        rw [if_neg (fun hcon => Bool.false_ne_true hcon)]
        rw [if_neg hz]
      constructor
      · rw [h1]
        apply backfill_of_no_new
        · exact hex
        · intro r hr
          obtain ⟨hrs, hflt⟩ := List.mem_filter.mp hr
          have hmm : saleMatches
              (s.saleItems ++ (zeroChildRows s).flatMap (itemsForRow s.salesCols s.airlines now)) r
                = false := by
            simpa using hflt
          unfold saleMatches at hmm
          rw [List.any_append] at hmm
          have hm1 : s.saleItems.any (fun it => it.sale_id == saleIdOf r) = false :=
            (Bool.or_eq_false_iff.mp hmm).1
          have hm2 : ((zeroChildRows s).flatMap (itemsForRow s.salesCols s.airlines now)).any
              (fun it => it.sale_id == saleIdOf r) = false :=
            (Bool.or_eq_false_iff.mp hmm).2
          have hrz : r ∈ zeroChildRows s := by
            refine List.mem_filter.mpr ⟨hrs, ?_⟩
            unfold saleMatches
            rw [hm1]
            rfl
          have hnow : itemsForRow s.salesCols s.airlines now r = [] := by
            by_contra hne
            obtain ⟨it, hit⟩ := List.exists_mem_of_ne_nil _ hne
            have hid := sale_id_of_mem_itemsForRow hit
            have htrue : ((zeroChildRows s).flatMap (itemsForRow s.salesCols s.airlines now)).any
                (fun it => it.sale_id == saleIdOf r) = true := by
              rw [List.any_eq_true]
              exact ⟨it, List.mem_flatMap.mpr ⟨r, hrz, hit⟩, by rw [hid]; exact beq_self_eq_true _⟩
            rw [htrue] at hm2
            simp at hm2
          exact itemsForRow_nil_indep hnow
      · intro r hr hm
        rw [h1]
        dsimp only
        rw [List.filter_append]
        have hnil2 : ((zeroChildRows s).flatMap (itemsForRow s.salesCols s.airlines now)).filter
            (fun it => it.sale_id == saleIdOf r) = [] := by
          rw [List.filter_eq_nil_iff]
          intro it hit hbeq
          obtain ⟨r2, hr2, hit2⟩ := List.mem_flatMap.mp hit
          have hid : it.sale_id = saleIdOf r2 := sale_id_of_mem_itemsForRow hit2
          have hrr : saleIdOf r2 = saleIdOf r := by
            rw [← hid]
            exact eq_of_beq hbeq
          have hz2 := (List.mem_filter.mp hr2).2
          have hmr2 : saleMatches s.saleItems r2 = true := by
            unfold saleMatches at hm ⊢
            rw [List.any_eq_true] at hm ⊢
            obtain ⟨it0, hit0, hb0⟩ := hm
            refine ⟨it0, hit0, ?_⟩
            rw [hrr]
            exact hb0
          rw [hmr2] at hz2
          simp at hz2
        rw [hnil2, List.append_nil]
  · have hf : s.saleItemsExists = false := by simpa using hex
    have hgen : ∀ n3 : String, backfill_sale_items n3 s = s := by
      intro n3
      unfold backfill_sale_items
      rw [hf]
      rfl
    rw [hgen now, hgen now2]
    exact ⟨rfl, fun r hr hm => rfl⟩

/-- Witness for C6: on the concrete store, the parent that already has a
child keeps exactly its original children after a backfill run. -/
theorem backfill_sale_items_idempotent_witness :
    (backfill_sale_items "t1" demoSalesState).saleItems.filter
        (fun it => it.sale_id == saleIdOf demoRowC)
      = demoSalesState.saleItems.filter (fun it => it.sale_id == saleIdOf demoRowC) :=
  (backfill_sale_items_idempotent "t1" "t2" demoSalesState).2 demoRowC
    (by decide) (by decide)

/-- C9. With the store file present and the backups path occupied by a
regular file, `_backup_db_on_startup` raises (the unguarded
`os.makedirs` propagates FileExistsError), contradicting the claim that
it returns without raising on every input; by contrast a copy failure is
swallowed, and a missing store file means nothing happens at all. -/
theorem backup_db_raises_on_obstructed_backups_path :
    backup_db_on_startup obstructedFs = Except.error "FileExistsError"
    ∧ backup_db_on_startup failingCopyFs = Except.ok failingCopyFs
    ∧ backup_db_on_startup { obstructedFs with dbExists := false }
        = Except.ok { obstructedFs with dbExists := false } := by
  exact ⟨rfl, rfl, rfl⟩

/-- C10. Default admin bootstrap is idempotent: with an `Admin` row
present nothing changes; without one, exactly the default row is appended
— nickname `Admin`, role `Admin`, the hash of `12345`, and
`must_change_password = 1` when that column exists — after which exactly
one `Admin` row exists, and any further run changes nothing. -/
theorem ensure_default_admin_idempotent (hasher : String → String) (now now2 : String)
    (s : UsersState) :
    (hasAdminRow s.rows = true → ensure_default_admin hasher now s = s)
    ∧ (hasAdminRow s.rows = false →
        ensure_default_admin hasher now s
            = { s with rows := s.rows ++ [adminRow (hasher "12345") now s.cols] }
          ∧ rget (adminRow (hasher "12345") now s.cols) "nickname" = Value.text "Admin"
          ∧ rget (adminRow (hasher "12345") now s.cols) "role" = Value.text "Admin"
          ∧ rget (adminRow (hasher "12345") now s.cols) "password" = Value.text (hasher "12345")
          ∧ ("must_change_password" ∈ s.cols →
              rget (adminRow (hasher "12345") now s.cols) "must_change_password" = Value.int 1)
          ∧ ((ensure_default_admin hasher now s).rows.filter
              (fun r => rget r "nickname" == Value.text "Admin")).length = 1)
    ∧ ensure_default_admin hasher now2 (ensure_default_admin hasher now s)
        = ensure_default_admin hasher now s := by
  have hnick : rget (adminRow (hasher "12345") now s.cols) "nickname" = Value.text "Admin" := rfl
  refine ⟨fun h => ?_, fun h => ?_, ?_⟩
  · unfold ensure_default_admin
    rw [if_pos h]
  · have he : ensure_default_admin hasher now s
        = { s with rows := s.rows ++ [adminRow (hasher "12345") now s.cols] } := by
      unfold ensure_default_admin
      rw [if_neg (by rw [h]; exact Bool.false_ne_true)]
    refine ⟨he, rfl, rfl, rfl, fun hmc => ?_, ?_⟩
    · unfold adminRow rget
      simp [List.lookup, hmc]
    · rw [he]
      dsimp only
      rw [List.filter_append]
      have h0 : s.rows.filter (fun r => rget r "nickname" == Value.text "Admin") = [] := by
        rw [List.filter_eq_nil_iff]
        intro r hr hbe
        have : hasAdminRow s.rows = true := by
          unfold hasAdminRow
          rw [List.any_eq_true]
          exact ⟨r, hr, hbe⟩
        rw [this] at h
        exact Bool.false_ne_true h.symm
      rw [h0]
      simp [hnick]
  · by_cases h : hasAdminRow s.rows = true
    · unfold ensure_default_admin
      rw [if_pos h, if_pos h]
    · have hf : hasAdminRow s.rows = false := by
        cases hb : hasAdminRow s.rows
        · rfl
        · exact absurd hb h
      have he : ensure_default_admin hasher now s
          = { s with rows := s.rows ++ [adminRow (hasher "12345") now s.cols] } := by
        unfold ensure_default_admin
        rw [if_neg (by rw [hf]; exact Bool.false_ne_true)]
      rw [he]
      have hthen : hasAdminRow (s.rows ++ [adminRow (hasher "12345") now s.cols]) = true := by
        unfold hasAdminRow
        rw [List.any_eq_true]
        refine ⟨adminRow (hasher "12345") now s.cols, List.mem_append_right _ (by simp), ?_⟩
        rw [hnick]
        rfl
      unfold ensure_default_admin
      rw [if_pos hthen]

/-- Witness for C10: bootstrapping the concrete Admin-less store leaves
exactly one Admin row. -/
theorem ensure_default_admin_idempotent_witness :
    ((ensure_default_admin (fun p => p ++ "-hashed") "t0" demoUsersState).rows.filter
        (fun r => rget r "nickname" == Value.text "Admin")).length = 1 :=
  (((ensure_default_admin_idempotent (fun p => p ++ "-hashed") "t0" "t1"
      demoUsersState).2.1 (by decide)).2.2.2.2.2)
